import Mathlib

/-!
Verification of the graph4j dual-embedding ingestion/search core.

Shallow embedding of:
  * `graph4j/dual_embedding_graphiti.py` — `add_episode_dual`, `search_dual`,
    `search_nodes_dual`;
  * `graph4j/routers/ingest.py` — `AsyncWorker` (FIFO queue worker) and the
    `embedding_mode` dispatch of `add_episode_task`;
  * `graph4j/graphiti_client.py` — `delete_entity_edge`, `delete_episodic_node`.

External collaborators (the `graphiti_core` library: `Graphiti.add_episode`,
`Graphiti.save_episode_results`, `Graphiti.search`, `Graphiti.search_`,
`EntityEdge.get_by_uuid`, …) are modelled at their interface: their behaviour
is a parameter (a function returning `Except`), and the store contents are
explicit values.  Effectful code is embedded as explicit call traces
(`List Op`) plus an `Except` result; the async worker is embedded as the
sequential loop it is (a single consumer that awaits each job to completion
before the next dequeue).
-/

namespace Graph4j

/-- Exceptions that cross the interfaces the core uses: `ValueError` raised by
the mode dispatch, the `*NotFoundError` family of `graphiti_core.errors`, and
any other failure of an adapter call (driver/LLM/embedder errors), carried as
an opaque code. -/
inductive Err where
  | valueError (msg : String)
  | notFound
  | adapterFailure (code : Nat)
deriving DecidableEq, Repr

/-- `true` exactly on `Except.error`. -/
def excIsError {ε α : Type} : Except ε α → Bool
  | .error _ => true
  | .ok _ => false

/-! ## Data model: episodes and extraction results -/

/-- The keyword arguments of `add_episode_dual` / `Graphiti.add_episode`
(`uuid`, `group_id`, `name`, `episode_body`, `reference_time`, `source`,
`source_description`).  `reference_time` is a timestamp, modelled as `Nat`;
`source` is the `EpisodeType` index (0 = message, 1 = text, 2 = json). -/
structure EpisodeInput where
  uuid : String
  group_id : String
  name : String
  episode_body : String
  reference_time : Nat
  source : Nat
  source_description : Option String
deriving DecidableEq, Repr

/-- The persisted episode record (`EpisodicNode` of `graphiti_core`): the
fields the claims depend on are its identity keys. -/
structure EpisodeRecord where
  uuid : String
  group_id : String
  name : String
  content : String
deriving DecidableEq, Repr

/-- `AddEpisodeResults` returned by `Graphiti.add_episode` and
`Graphiti.save_episode_results`: the episode record plus the extracted
`nodes`, `edges`, `episodic_edges`.  Node and edge payloads are opaque to this
core (they are produced and consumed by `graphiti_core`), so they are type
parameters `ν` and `ε`. -/
structure ExtractionResult (ν ε : Type) where
  episode : EpisodeRecord
  nodes : List ν
  edges : List ε
  episodic_edges : List ε
deriving DecidableEq, Repr

/-- The keyword arguments of one `Graphiti.save_episode_results` call.
`embedder` is identified by an id (the two store clients each own one
embedder instance). -/
structure SaveCall (ν ε : Type) where
  episode : EpisodeRecord
  nodes : List ν
  edges : List ε
  episodic_edges : List ε
  embedder : Nat
  clear_embeddings : Bool
deriving DecidableEq, Repr

/-- Which of the two store clients an adapter call targets. -/
inductive StoreTag where
  | fast
  | default
deriving DecidableEq, Repr

/-- One adapter call made by the dual-save coordinator.  `add_episode`
performs the LLM extraction internally (plus embedding and persisting);
`save_episode_results` only re-embeds and persists an already-extracted
snapshot, it never extracts. -/
inductive Op (ν ε : Type) where
  | add_episode (store : StoreTag) (input : EpisodeInput)
  | save_episode_results (store : StoreTag) (call : SaveCall ν ε)
deriving DecidableEq, Repr

/-- Whether an adapter call pays the LLM extraction cost: only
`Graphiti.add_episode` does. -/
def performsExtraction {ν ε : Type} : Op ν ε → Bool
  | .add_episode _ _ => true
  | .save_episode_results _ _ => false

/-! ## Dual-save coordinator: `add_episode_dual` -/

/-- The argument record `add_episode_dual` passes to
`default_graphiti.save_episode_results`: the fast result's episode, nodes,
edges and episodic edges verbatim, `embedder=default_graphiti.embedder`,
`clear_embeddings=True`. -/
def mkDefaultSaveCall {ν ε : Type} (fast_result : ExtractionResult ν ε)
    (default_embedder : Nat) : SaveCall ν ε :=
  { episode := fast_result.episode
    nodes := fast_result.nodes
    edges := fast_result.edges
    episodic_edges := fast_result.episodic_edges
    embedder := default_embedder
    clear_embeddings := true }

/-- `add_episode_dual` (dual_embedding_graphiti.py, lines 12–88).
Step 1: `await fast_graphiti.add_episode(...)` — the only LLM extraction;
its failure aborts the whole call.  Step 2: `await
default_graphiti.save_episode_results(...)` on the fast result with the
default embedder and `clear_embeddings=True`; this step is awaited (not
detached), so its failure is the call's result.  Returns
`(fast_result, default_result)`.  The first component of the output is the
trace of adapter calls in the order they were awaited. -/
def add_episode_dual {ν ε : Type}
    (fast_add_episode : EpisodeInput → Except Err (ExtractionResult ν ε))
    (default_save_episode_results : SaveCall ν ε → Except Err (ExtractionResult ν ε))
    (default_embedder : Nat)
    (input : EpisodeInput) :
    List (Op ν ε) × Except Err (ExtractionResult ν ε × ExtractionResult ν ε) :=
  match fast_add_episode input with
  | .error e => ([.add_episode .fast input], .error e)
  | .ok fast_result =>
    let call := mkDefaultSaveCall fast_result default_embedder
    match default_save_episode_results call with
    | .error e =>
      ([.add_episode .fast input, .save_episode_results .default call], .error e)
    | .ok default_result =>
      ([.add_episode .fast input, .save_episode_results .default call],
        .ok (fast_result, default_result))

/-! Concrete sample values used by closed witness/counterexample theorems. -/

def sampleInput : EpisodeInput :=
  { uuid := "ep-1", group_id := "g-1", name := "n", episode_body := "body"
    reference_time := 0, source := 0, source_description := none }

def sampleRecord : EpisodeRecord :=
  { uuid := "ep-1", group_id := "g-1", name := "n", content := "body" }

def sampleResult : ExtractionResult Nat Nat :=
  { episode := sampleRecord, nodes := [10, 11], edges := [20], episodic_edges := [30] }

/-- The call trace of `add_episode_dual` has one of two shapes: the fast
`add_episode` alone (when it raised), or the fast `add_episode` followed by
the default client's `save_episode_results` on the fast result. -/
theorem add_episode_dual_trace {ν ε : Type}
    (fast_add_episode : EpisodeInput → Except Err (ExtractionResult ν ε))
    (default_save_episode_results : SaveCall ν ε → Except Err (ExtractionResult ν ε))
    (default_embedder : Nat) (input : EpisodeInput) :
    (add_episode_dual fast_add_episode default_save_episode_results
        default_embedder input).1 = [Op.add_episode .fast input] ∨
    ∃ r : ExtractionResult ν ε,
      (add_episode_dual fast_add_episode default_save_episode_results
          default_embedder input).1 =
        [Op.add_episode .fast input,
          Op.save_episode_results .default (mkDefaultSaveCall r default_embedder)] := by
  unfold add_episode_dual
  cases hf : fast_add_episode input with
  | error e => exact Or.inl rfl
  | ok fast_result =>
    dsimp only
    cases hd : default_save_episode_results (mkDefaultSaveCall fast_result default_embedder) with
    | error e => exact Or.inr ⟨fast_result, rfl⟩
    | ok default_result => exact Or.inr ⟨fast_result, rfl⟩

/-- C1: Dual-mode ingestion performs the LLM extraction exactly once: in the
trace of `add_episode_dual`, exactly one adapter call pays extraction, and
every extracting call is the fast client's `add_episode` on the submitted
input; the quality leg (`save_episode_results`) never extracts, no matter how
the two store calls behave. -/
theorem add_episode_dual_extracts_once {ν ε : Type}
    (fast_add_episode : EpisodeInput → Except Err (ExtractionResult ν ε))
    (default_save_episode_results : SaveCall ν ε → Except Err (ExtractionResult ν ε))
    (default_embedder : Nat) (input : EpisodeInput) :
    ((add_episode_dual fast_add_episode default_save_episode_results
        default_embedder input).1.countP (fun op => performsExtraction op)) = 1 ∧
    ∀ op ∈ (add_episode_dual fast_add_episode default_save_episode_results
        default_embedder input).1,
      performsExtraction op = true → op = Op.add_episode .fast input := by
  rcases add_episode_dual_trace fast_add_episode default_save_episode_results
      default_embedder input with h | ⟨r, h⟩ <;> rw [h]
  · refine ⟨by simp [performsExtraction], ?_⟩
    intro op hop _
    simpa using hop
  · refine ⟨by simp [performsExtraction], ?_⟩
    intro op hop hex
    simp only [List.mem_cons, List.not_mem_nil, or_false] at hop
    rcases hop with h1 | h1
    · exact h1
    · rw [h1] at hex
      simp [performsExtraction] at hex

/-- C2 counterexample: with a succeeding fast leg and a failing quality
(default) leg, `add_episode_dual` returns the quality-leg error to its
caller.  This refutes the claim that the quality replication runs in a
detached task whose failure is caught internally and never propagates: in
the code the `save_episode_results` call is awaited (line 72) and has no
exception handler, so its failure is the result of `add_episode_dual`. -/
theorem add_episode_dual_quality_failure_reaches_caller :
    (add_episode_dual (fun _ => Except.ok sampleResult)
        (fun _ => Except.error (Err.adapterFailure 7)) 0 sampleInput).2
      = Except.error (Err.adapterFailure 7) := by
  rfl

/-- C2 amended: `add_episode_dual` awaits the quality-leg
`save_episode_results` before returning — the save call appears in the trace
before any result is produced — and a quality-leg failure propagates out of
`add_episode_dual` as the operation's result (to be caught and logged by the
ingestion worker like any other job failure); the fast write is not rolled
back (the trace contains no further operation after the failed save). -/
theorem add_episode_dual_awaits_quality_leg {ν ε : Type}
    (fast_add_episode : EpisodeInput → Except Err (ExtractionResult ν ε))
    (default_save_episode_results : SaveCall ν ε → Except Err (ExtractionResult ν ε))
    (default_embedder : Nat) (input : EpisodeInput)
    (r : ExtractionResult ν ε) (e : Err)
    (hfast : fast_add_episode input = Except.ok r)
    (hsave : default_save_episode_results (mkDefaultSaveCall r default_embedder)
      = Except.error e) :
    add_episode_dual fast_add_episode default_save_episode_results
        default_embedder input =
      ([Op.add_episode .fast input,
        Op.save_episode_results .default (mkDefaultSaveCall r default_embedder)],
        Except.error e) := by
  unfold add_episode_dual
  rw [hfast]
  dsimp only
  rw [hsave]

/-- Witness for `add_episode_dual_awaits_quality_leg` at concrete behaviours:
a fast leg returning `sampleResult` and a quality leg failing with
`notFound`. -/
theorem add_episode_dual_awaits_quality_leg_witness :
    add_episode_dual (fun _ => Except.ok sampleResult)
        (fun _ => Except.error Err.notFound) 5 sampleInput =
      ([Op.add_episode .fast sampleInput,
        Op.save_episode_results .default (mkDefaultSaveCall sampleResult 5)],
        Except.error Err.notFound) :=
  add_episode_dual_awaits_quality_leg (fun _ => Except.ok sampleResult)
    (fun _ => Except.error Err.notFound) 5 sampleInput sampleResult Err.notFound
    rfl rfl

/-- C9: whenever `add_episode_dual` succeeds, its trace contains a
`save_episode_results` call against the default (quality) client whose
payload is exactly the fast extraction's episode record and node/edge/
episodic-edge lists — hence the same `uuid` and `group_id` reach both
stores — with `clear_embeddings := true` and the default client's own
embedder supplied for re-embedding. -/
theorem add_episode_dual_replicates_snapshot {ν ε : Type}
    (fast_add_episode : EpisodeInput → Except Err (ExtractionResult ν ε))
    (default_save_episode_results : SaveCall ν ε → Except Err (ExtractionResult ν ε))
    (default_embedder : Nat) (input : EpisodeInput)
    (fast_result default_result : ExtractionResult ν ε)
    (hok : (add_episode_dual fast_add_episode default_save_episode_results
        default_embedder input).2 = Except.ok (fast_result, default_result)) :
    ∃ call : SaveCall ν ε,
      Op.save_episode_results .default call ∈
        (add_episode_dual fast_add_episode default_save_episode_results
          default_embedder input).1 ∧
      call.episode = fast_result.episode ∧
      call.nodes = fast_result.nodes ∧
      call.edges = fast_result.edges ∧
      call.episodic_edges = fast_result.episodic_edges ∧
      call.clear_embeddings = true ∧
      call.embedder = default_embedder ∧
      call.episode.uuid = fast_result.episode.uuid ∧
      call.episode.group_id = fast_result.episode.group_id := by
  unfold add_episode_dual at hok ⊢
  cases hf : fast_add_episode input with
  | error e => rw [hf] at hok; simp at hok
  | ok r =>
    rw [hf] at hok
    dsimp only at hok ⊢
    cases hd : default_save_episode_results (mkDefaultSaveCall r default_embedder) with
    | error e => rw [hd] at hok; simp at hok
    | ok d =>
      rw [hd] at hok
      simp only [Except.ok.injEq, Prod.mk.injEq] at hok
      obtain ⟨h1, _h2⟩ := hok
      subst h1
      exact ⟨mkDefaultSaveCall r default_embedder, by simp, rfl, rfl, rfl, rfl,
        rfl, rfl, rfl, rfl⟩

/-- A quality-store save behaviour that persists exactly the snapshot passed
to it, used by closed witness theorems. -/
def echoSave (c : SaveCall Nat Nat) : ExtractionResult Nat Nat :=
  { episode := c.episode
    nodes := c.nodes
    edges := c.edges
    episodic_edges := c.episodic_edges }

/-- Witness for `add_episode_dual_replicates_snapshot`: a dual-save in which
both legs succeed, with the default client's embedder id 5. -/
theorem add_episode_dual_replicates_snapshot_witness :
    ∃ call : SaveCall Nat Nat,
      Op.save_episode_results .default call ∈
        (add_episode_dual (fun _ => Except.ok sampleResult)
          (fun c => Except.ok (echoSave c)) 5 sampleInput).1 ∧
      call.episode = sampleResult.episode ∧
      call.nodes = sampleResult.nodes ∧
      call.edges = sampleResult.edges ∧
      call.episodic_edges = sampleResult.episodic_edges ∧
      call.clear_embeddings = true ∧
      call.embedder = 5 ∧
      call.episode.uuid = sampleResult.episode.uuid ∧
      call.episode.group_id = sampleResult.episode.group_id :=
  add_episode_dual_replicates_snapshot (fun _ => Except.ok sampleResult)
    (fun c => Except.ok (echoSave c)) 5 sampleInput sampleResult
    (echoSave (mkDefaultSaveCall sampleResult 5)) rfl

/-! ## Search router: `search_dual` and `search_nodes_dual`

The two adapter searches are external (`Graphiti.search` / `Graphiti.search_`);
their outcomes enter the model as `Except` values.  In dual mode the code runs
both under `asyncio.gather` without `return_exceptions`, so if either raises,
the gather raises and no merged list is produced; the model surfaces the fast
client's error first when both fail (which error wins in the code depends on
timing, but the claims only concern whether an error is surfaced). -/

/-- `search_dual` (dual_embedding_graphiti.py, lines 91–161): mode dispatch on
`embedding_mode`; in `"dual"` mode, merge with the default (quality) results
first, fast results appended, truncated to `num_results`; any other mode than
the three known ones raises `ValueError`. -/
def search_dual {α : Type} (fast_search default_search : Except Err (List α))
    (embedding_mode : String) (num_results : Nat) : Except Err (List α) :=
  if embedding_mode = "fast" then
    fast_search
  else if embedding_mode = "default" then
    default_search
  else if embedding_mode = "dual" then
    match fast_search, default_search with
    | .ok fast_results, .ok default_results =>
      .ok ((default_results ++ fast_results).take num_results)
    | .error e, _ => .error e
    | _, .error e => .error e
  else
    .error (Err.valueError embedding_mode)

/-- The `SearchResults` object returned by `Graphiti.search_`: the `nodes`
field the router merges, plus the object's remaining fields (edges, episodes,
communities, …) kept opaque as `other`. -/
structure SearchResults (α ω : Type) where
  nodes : List α
  other : ω
deriving DecidableEq, Repr

/-- `search_nodes_dual` (dual_embedding_graphiti.py, lines 164–234): same mode
dispatch; in `"dual"` mode the default result's `nodes` field is overwritten
with default nodes followed by fast nodes (no truncation — the function takes
no limit argument) and the default result object is returned. -/
def search_nodes_dual {α ω : Type}
    (fast_search default_search : Except Err (SearchResults α ω))
    (embedding_mode : String) : Except Err (SearchResults α ω) :=
  if embedding_mode = "fast" then
    fast_search
  else if embedding_mode = "default" then
    default_search
  else if embedding_mode = "dual" then
    match fast_search, default_search with
    | .ok fast_results, .ok default_results =>
      .ok { default_results with nodes := default_results.nodes ++ fast_results.nodes }
    | .error e, _ => .error e
    | _, .error e => .error e
  else
    .error (Err.valueError embedding_mode)

/-- C3 counterexample: in dual mode with the quality (default) store
returning nodes `[0, 1]` and the fast store returning nodes `[2, 3]` — each
consistent with a limit of 3 — `search_nodes_dual` returns all four merged
nodes, not the claimed truncation `[0, 1, 2]` to the limit: the node-search
merge performs no truncation at all. -/
theorem search_nodes_dual_not_truncated :
    search_nodes_dual (α := Nat) (ω := Unit)
        (Except.ok ⟨[2, 3], ()⟩) (Except.ok ⟨[0, 1], ()⟩) "dual"
      = Except.ok ⟨[0, 1, 2, 3], ()⟩ ∧
    ([0, 1, 2, 3] : List Nat) ≠ [0, 1, 2] := by
  constructor
  · rfl
  · decide

/-- C3 amended: in dual mode, fact search (`search_dual`) returns exactly the
quality (default) results followed by the fast results, truncated to
`num_results`; node search (`search_nodes_dual`) returns the default result
object with quality nodes followed by fast nodes, without truncation
(truncation to the caller's limit happens outside this function). -/
theorem dual_search_merge_policy {α ω : Type} (Q F : List α) (num_results : Nat)
    (d f : SearchResults α ω) :
    search_dual (Except.ok F) (Except.ok Q) "dual" num_results
      = Except.ok ((Q ++ F).take num_results) ∧
    search_nodes_dual (Except.ok f) (Except.ok d) "dual"
      = Except.ok { d with nodes := d.nodes ++ f.nodes } := by
  constructor <;> rfl

/-- C4: in dual mode, if either adapter's search raises, the whole request
fails with an error — neither `search_dual` nor `search_nodes_dual` ever
returns the surviving adapter's partial results. -/
theorem dual_search_failure_aborts_request {α ω : Type}
    (fast_search default_search : Except Err (List α)) (num_results : Nat)
    (fast_nsearch default_nsearch : Except Err (SearchResults α ω))
    (h : excIsError fast_search = true ∨ excIsError default_search = true)
    (hn : excIsError fast_nsearch = true ∨ excIsError default_nsearch = true) :
    (∃ e, search_dual fast_search default_search "dual" num_results
        = Except.error e) ∧
    (∃ e, search_nodes_dual fast_nsearch default_nsearch "dual"
        = Except.error e) := by
  constructor
  · cases fast_search with
    | error e =>
      cases default_search with
      | error e2 => exact ⟨e, rfl⟩
      | ok m => exact ⟨e, rfl⟩
    | ok l =>
      cases default_search with
      | error e => exact ⟨e, rfl⟩
      | ok m => simp [excIsError] at h
  · cases fast_nsearch with
    | error e =>
      cases default_nsearch with
      | error e2 => exact ⟨e, rfl⟩
      | ok m => exact ⟨e, rfl⟩
    | ok l =>
      cases default_nsearch with
      | error e => exact ⟨e, rfl⟩
      | ok m => simp [excIsError] at hn

/-- Witness for `dual_search_failure_aborts_request`: the fast fact search
and the default node search fail while the other leg succeeds; both dual
requests surface an error. -/
theorem dual_search_failure_aborts_request_witness :
    (excIsError (Except.error (ε := Err) (α := List Nat) Err.notFound) = true ∨
      excIsError (Except.ok (ε := Err) ([] : List Nat)) = true) ∧
    ((∃ e, search_dual (Except.error Err.notFound)
        (Except.ok ([] : List Nat)) "dual" 3 = Except.error e) ∧
      (∃ e, search_nodes_dual (α := Nat) (ω := Unit) (Except.ok ⟨[], ()⟩)
        (Except.error (Err.adapterFailure 2)) "dual" = Except.error e)) :=
  ⟨Or.inl rfl,
    dual_search_failure_aborts_request (Except.error Err.notFound)
      (Except.ok ([] : List Nat)) 3 (Except.ok ⟨[], ()⟩)
      (Except.error (Err.adapterFailure 2)) (Or.inl rfl) (Or.inr rfl)⟩

/-! ## Ingestion mode dispatch (`add_episode_task`, routers/ingest.py) -/

/-- Which store(s) `add_episode_task` ingests into. -/
inductive IngestTarget where
  | both
  | fastOnly
  | defaultOnly
deriving DecidableEq, Repr

/-- The `embedding_mode` dispatch of `add_episode_task` (routers/ingest.py,
lines 101–139): `"dual"` saves to both stores, `"fast"` to the fast store
only, and every other string falls into the final `else` branch ("Quality
mode (selected via 'quality' or fallback)"), saving to the default store
only.  The dispatch is total: no mode string is rejected. -/
def ingest_mode_target (embedding_mode : String) : IngestTarget :=
  if embedding_mode = "dual" then
    .both
  else if embedding_mode = "fast" then
    .fastOnly
  else
    .defaultOnly

/-- C10: unknown mode strings are handled asymmetrically: for any
`embedding_mode` other than `"fast"` and `"dual"`, the ingestion dispatch
silently targets the default (quality) store only — its result type has no
error case — while the search functions, when the mode is additionally not
`"default"`, raise `ValueError`. -/
theorem unknown_mode_asymmetry {α ω : Type} (m : String)
    (hfast : m ≠ "fast") (hdual : m ≠ "dual")
    (fast_search default_search : Except Err (List α)) (num_results : Nat)
    (fast_nsearch default_nsearch : Except Err (SearchResults α ω)) :
    ingest_mode_target m = .defaultOnly ∧
    (m ≠ "default" →
      search_dual fast_search default_search m num_results
          = Except.error (Err.valueError m) ∧
        search_nodes_dual fast_nsearch default_nsearch m
          = Except.error (Err.valueError m)) := by
  refine ⟨?_, ?_⟩
  · simp [ingest_mode_target, hfast, hdual]
  · intro hdefault
    constructor
    · simp [search_dual, hfast, hdual, hdefault]
    · simp [search_nodes_dual, hfast, hdual, hdefault]

/-- Witness for `unknown_mode_asymmetry` at the misspelling `"quality"`
(the ingestion docstring's name for the mode, which the search functions
reject since they only accept `"default"`). -/
theorem unknown_mode_asymmetry_witness :
    ingest_mode_target "quality" = .defaultOnly ∧
    ("quality" ≠ "default" →
      search_dual (Except.ok ([] : List Nat)) (Except.ok ([] : List Nat))
          "quality" 3 = Except.error (Err.valueError "quality") ∧
        search_nodes_dual (α := Nat) (ω := Unit) (Except.ok ⟨[], ()⟩)
          (Except.ok ⟨[], ()⟩) "quality"
          = Except.error (Err.valueError "quality")) :=
  unknown_mode_asymmetry "quality" (by decide) (by decide)
    (Except.ok ([] : List Nat)) (Except.ok ([] : List Nat)) 3
    (Except.ok ⟨[], ()⟩) (Except.ok ⟨[], ()⟩)

/-! ## Ingestion queue / worker (`AsyncWorker`, routers/ingest.py lines 19–50)

The worker is a single consumer: `worker()` loops `job = await
self.queue.get()` then `await job()` to completion before the next dequeue,
so processing the queued jobs is the sequential loop below.  A job that
raises an ordinary exception (`Exception` subclass) is caught by the inner
`except Exception` handler, which logs and continues; `asyncio.CancelledError`
(a `BaseException`, the cancellation signal delivered by `stop()`) escapes the
inner handler and is caught by the outer `except asyncio.CancelledError`,
which breaks the loop. -/

/-- How one queued job's `await job()` ends. -/
inductive JobOutcome where
  | ok
  | raisesException
  | raisesCancelled
deriving DecidableEq, Repr

/-- One enqueued job: the `partial(add_episode_task, ep)` callable, reduced to
an identity and the way its execution ends. -/
structure Job where
  id : Nat
  outcome : JobOutcome
deriving DecidableEq, Repr

/-- Observable worker events: a job's execution begins (`await job()`
entered), finishes normally, or its exception is caught and logged. -/
inductive Event where
  | started (id : Nat)
  | completed (id : Nat)
  | errorLogged (id : Nat)
deriving DecidableEq, Repr

/-- The event log of `AsyncWorker.worker` consuming the queued jobs in FIFO
order: each job is started only after the previous one was fully handled; a
caught exception is logged and the loop continues; a `CancelledError` raised
out of a job breaks the loop. -/
def worker : List Job → List Event
  | [] => []
  | j :: rest =>
    match j.outcome with
    | .ok => .started j.id :: .completed j.id :: worker rest
    | .raisesException => .started j.id :: .errorLogged j.id :: worker rest
    | .raisesCancelled => [.started j.id]

/-- The ids whose execution began, in order. -/
def startedIds (events : List Event) : List Nat :=
  events.filterMap fun e =>
    match e with
    | .started i => some i
    | _ => none

/-- The ids whose execution completed normally, in order. -/
def completedIds (events : List Event) : List Nat :=
  events.filterMap fun e =>
    match e with
    | .completed i => some i
    | _ => none

/-- `AsyncWorker` state: the FIFO `asyncio.Queue` buffer (front = next to be
dequeued) and whether the consumer task is alive. -/
structure AsyncWorkerState where
  queue : List Job
  taskAlive : Bool
deriving DecidableEq, Repr

/-- `await self.queue.put(...)`: FIFO enqueue at the back. -/
def enqueue (w : AsyncWorkerState) (j : Job) : AsyncWorkerState :=
  { w with queue := w.queue ++ [j] }

/-- The enqueue loop of `add_episodes` (`for ep in request.episodes: await
async_worker.queue.put(partial(add_episode_task, ep))`): one job per episode,
in request order. -/
def add_episodes (w : AsyncWorkerState) (jobs : List Job) : AsyncWorkerState :=
  jobs.foldl enqueue w

/-- A started worker with an empty queue. -/
def startedWorker : AsyncWorkerState := { queue := [], taskAlive := true }

/-- The `while not self.queue.empty(): self.queue.get_nowait()` drain loop of
`AsyncWorker.stop`. -/
def drainQueue : List Job → List Job
  | [] => []
  | _ :: rest => drainQueue rest

/-- `AsyncWorker.stop`: cancels the consumer task (the worker's
`except asyncio.CancelledError` handler breaks its loop), awaits its exit,
then drains the queue with `get_nowait` until empty. -/
def stop (w : AsyncWorkerState) : AsyncWorkerState :=
  { queue := drainQueue w.queue, taskAlive := false }

/-- The events the worker can still produce from a state: none unless the
consumer task is alive. -/
def runPending (w : AsyncWorkerState) : List Event :=
  if w.taskAlive then worker w.queue else []

theorem add_episodes_queue (w : AsyncWorkerState) (jobs : List Job) :
    (add_episodes w jobs).queue = w.queue ++ jobs := by
  induction jobs generalizing w with
  | nil => simp [add_episodes]
  | cons j rest ih =>
    simp only [add_episodes, List.foldl_cons] at ih ⊢
    rw [ih (enqueue w j)]
    simp [enqueue]

theorem add_episodes_taskAlive (w : AsyncWorkerState) (jobs : List Job) :
    (add_episodes w jobs).taskAlive = w.taskAlive := by
  induction jobs generalizing w with
  | nil => rfl
  | cons j rest ih =>
    simp only [add_episodes, List.foldl_cons] at ih ⊢
    rw [ih (enqueue w j)]
    rfl

theorem worker_all_ok (jobs : List Job) (h : ∀ j ∈ jobs, j.outcome = .ok) :
    worker jobs
      = jobs.flatMap (fun j => [Event.started j.id, Event.completed j.id]) := by
  induction jobs with
  | nil => rfl
  | cons j rest ih =>
    have hj : j.outcome = .ok := h j (List.mem_cons_self j rest)
    have hrest : ∀ x ∈ rest, x.outcome = .ok := fun x hx =>
      h x (List.mem_cons_of_mem j hx)
    rw [List.flatMap_cons, ← ih hrest]
    simp [worker, hj]

theorem completedIds_serialized (jobs : List Job) :
    completedIds
        (jobs.flatMap (fun j => [Event.started j.id, Event.completed j.id]))
      = jobs.map (fun j => j.id) := by
  induction jobs with
  | nil => rfl
  | cons j rest ih =>
    simp only [List.flatMap_cons, List.map_cons]
    rw [← ih]
    simp [completedIds]

/-- C5: submitting N episodes to a started worker and letting every job run
to completion yields the strictly serialized log: each job's `started` event
is immediately followed by its `completed` event before the next job's
`started`, and the completion order equals the submission order. -/
theorem worker_fifo_in_submission_order (jobs : List Job)
    (h : ∀ j ∈ jobs, j.outcome = .ok) :
    runPending (add_episodes startedWorker jobs)
      = jobs.flatMap (fun j => [Event.started j.id, Event.completed j.id]) ∧
    completedIds (runPending (add_episodes startedWorker jobs))
      = jobs.map (fun j => j.id) := by
  have hq : runPending (add_episodes startedWorker jobs) = worker jobs := by
    simp [runPending, add_episodes_queue, add_episodes_taskAlive, startedWorker]
  rw [hq, worker_all_ok jobs h]
  exact ⟨rfl, completedIds_serialized jobs⟩

/-- Witness for `worker_fifo_in_submission_order`: three succeeding jobs. -/
theorem worker_fifo_in_submission_order_witness :
    runPending (add_episodes startedWorker
        [⟨0, .ok⟩, ⟨1, .ok⟩, ⟨2, .ok⟩])
      = [Event.started 0, Event.completed 0, Event.started 1,
          Event.completed 1, Event.started 2, Event.completed 2] ∧
    completedIds (runPending (add_episodes startedWorker
        [⟨0, .ok⟩, ⟨1, .ok⟩, ⟨2, .ok⟩]))
      = [0, 1, 2] :=
  worker_fifo_in_submission_order [⟨0, .ok⟩, ⟨1, .ok⟩, ⟨2, .ok⟩]
    (by decide)

/-- C6: a job that raises an exception is caught and logged, and the worker
proceeds to process the remaining queue exactly as it would have otherwise:
the failing job terminates neither the loop nor any subsequent job (in
particular the next queued job's events follow unchanged). -/
theorem worker_failure_isolated (j : Job) (rest : List Job)
    (h : j.outcome = .raisesException) :
    worker (j :: rest)
      = Event.started j.id :: Event.errorLogged j.id :: worker rest := by
  simp [worker, h]

/-- Witness for `worker_failure_isolated`: a failing job followed by a
succeeding one; the second completes. -/
theorem worker_failure_isolated_witness :
    worker [⟨0, .raisesException⟩, ⟨1, .ok⟩]
      = Event.started 0 :: Event.errorLogged 0
        :: worker [⟨1, .ok⟩] :=
  worker_failure_isolated ⟨0, .raisesException⟩ [⟨1, .ok⟩] rfl

theorem drainQueue_eq_nil (q : List Job) : drainQueue q = [] := by
  induction q with
  | nil => rfl
  | cons j rest ih => simpa [drainQueue] using ih

/-- C7: after `stop` returns, the queue has been drained empty — every job
still pending at stop time is discarded — and the worker produces no further
event: no pending job is ever started or executed after `stop`. -/
theorem stop_drains_and_halts (w : AsyncWorkerState) :
    (stop w).queue = [] ∧
    runPending (stop w) = [] ∧
    startedIds (runPending (stop w)) = [] := by
  refine ⟨drainQueue_eq_nil w.queue, ?_, ?_⟩
  · simp [runPending, stop]
  · simp [runPending, stop, startedIds]

/-! ## Dual-store delete helpers (graphiti_client.py lines 32–68)

A store's content is modelled as the list of uuids present (entity edges for
`delete_entity_edge`, episodic nodes for `delete_episodic_node`; both
helpers have the identical nested `_delete` structure, shared here as
`delete_from_client`).  `get_by_uuid` models `EntityEdge.get_by_uuid` /
`EpisodicNode.get_by_uuid`: it raises the `*NotFoundError` when the uuid is
absent; `record_delete` models `edge.delete(driver)` / `episode.delete`. -/

/-- `get_by_uuid`: ok when the uuid is present, `notFound` otherwise. -/
def get_by_uuid (store : List String) (uuid : String) : Except Err String :=
  if uuid ∈ store then .ok uuid else .error .notFound

/-- `delete(driver)` on a fetched record: removes the uuid. -/
def record_delete (store : List String) (uuid : String) : List String :=
  store.erase uuid

/-- The nested `_delete(client)` helper: `try: get_by_uuid; delete
except NotFoundError: pass` — a not-found in this store is swallowed and the
store is left unchanged; any other exception would propagate. -/
def delete_from_client (store : List String) (uuid : String) :
    Except Err (List String) :=
  match get_by_uuid store uuid with
  | .ok _ => .ok (record_delete store uuid)
  | .error .notFound => .ok store
  | .error e => .error e

/-- `delete_entity_edge`: delete from the default store, then from the fast
store when a fast client is attached. -/
def delete_entity_edge (default_store : List String)
    (fast_client : Option (List String)) (uuid : String) :
    Except Err (List String × Option (List String)) := do
  let d ← delete_from_client default_store uuid
  match fast_client with
  | none => pure (d, none)
  | some f => do
    let f2 ← delete_from_client f uuid
    pure (d, some f2)

/-- `delete_episodic_node`: identical dual-store structure over the episodic
nodes of each store. -/
def delete_episodic_node (default_store : List String)
    (fast_client : Option (List String)) (uuid : String) :
    Except Err (List String × Option (List String)) := do
  let d ← delete_from_client default_store uuid
  match fast_client with
  | none => pure (d, none)
  | some f => do
    let f2 ← delete_from_client f uuid
    pure (d, some f2)

theorem delete_from_client_eq (store : List String) (uuid : String) :
    delete_from_client store uuid = .ok (store.erase uuid) := by
  unfold delete_from_client get_by_uuid record_delete
  by_cases h : uuid ∈ store
  · simp [h]
  · simp [h, List.erase_of_not_mem h]

/-- C8: deleting an entity edge or an episodic node by uuid applies the
delete to the default store and, when a fast client is attached, to the fast
store as well, and always completes without error: when the target is absent
from a store, the not-found is swallowed and that store is simply left
unchanged (erasing an absent uuid is the identity). -/
theorem delete_both_stores_not_found_benign (default_store : List String)
    (fast_client : Option (List String)) (uuid : String) :
    delete_entity_edge default_store fast_client uuid
      = .ok (default_store.erase uuid,
          fast_client.map (fun f => f.erase uuid)) ∧
    delete_episodic_node default_store fast_client uuid
      = .ok (default_store.erase uuid,
          fast_client.map (fun f => f.erase uuid)) := by
  constructor
  all_goals
    first
      | unfold delete_entity_edge
      | unfold delete_episodic_node
  all_goals
    rw [delete_from_client_eq]
    cases fast_client with
    | none => rfl
    | some f =>
      simp [Bind.bind, Except.bind, delete_from_client_eq, Pure.pure, Except.pure]

end Graph4j
